import Mathlib

/-!
Verification development for the Voice-Diary pipeline repository.

The definitions below are shallow embeddings of the Python sources:
`scheduler.py`, `openai_processor.py`, `openai_whisper.py` and
`process_transcription.py`.  Machine arithmetic that Python performs on
floats over exactly-representable quantities (durations, intervals) is
modelled over `ℚ` with explicit floor/ceil; fallible operations are
modelled with `Option`/`Except`; module-level mutable state (the API
response cache, the loaded configuration) is passed explicitly.
-/

/-! ## Scheduler: interval computation (`scheduler.py`, `calculate_interval_seconds`) -/

/-- Python `int()` applied to a (real-valued) quantity truncates toward zero.
For the nonnegative quantities appearing here this is the floor. -/
def pyInt (q : ℚ) : ℤ := if 0 ≤ q then ⌊q⌋ else ⌈q⌉

/-- Embedding of `calculate_interval_seconds` from `scheduler.py`:
`runs_per_day == 0` returns the sentinel `0`; otherwise
`int(86400 / runs_per_day)`.  `runs_per_day` is modelled as a rational,
matching Python float division over config values. -/
def calculate_interval_seconds (runs_per_day : ℚ) : ℤ :=
  if runs_per_day = 0 then 0 else pyInt (86400 / runs_per_day)

/-- The two possible control paths of `main` in `scheduler.py` after the
interval is computed. -/
inductive SchedulerBehavior where
  | runOnce
  | loopForever
deriving DecidableEq, Repr

/-- Embedding of the dispatch in `main` (`scheduler.py` lines 357-362):
`interval_seconds == 0` runs the pipeline once and returns, any other value
enters the infinite loop. -/
def scheduler_main_behavior (interval_seconds : ℤ) : SchedulerBehavior :=
  if interval_seconds = 0 then SchedulerBehavior.runOnce
  else SchedulerBehavior.loopForever

/-- C3: for every runsPerDay > 0, `calculate_interval_seconds` returns
86400 / runsPerDay truncated to whole seconds (the floor, since the
quotient is nonnegative), and at runsPerDay = 0 it returns the sentinel 0,
which `main` interprets as "run once". -/
theorem calculate_interval_seconds_spec :
    (∀ r : ℚ, 0 < r → calculate_interval_seconds r = ⌊(86400 : ℚ) / r⌋)
    ∧ calculate_interval_seconds 0 = 0
    ∧ scheduler_main_behavior (calculate_interval_seconds 0) =
        SchedulerBehavior.runOnce := by
  refine ⟨fun r hr => ?_, rfl, rfl⟩
  have hq : (0 : ℚ) ≤ 86400 / r := by positivity
  simp only [calculate_interval_seconds, pyInt, if_neg hr.ne', if_pos hq]

/-- C3 witness: at runsPerDay = 7 the hypothesis 0 < 7 holds and the
interval is ⌊86400 / 7⌋ = 12342 seconds. -/
theorem calculate_interval_seconds_spec_witness :
    (0 : ℚ) < 7 ∧ calculate_interval_seconds 7 = ⌊(86400 : ℚ) / 7⌋ ∧
      calculate_interval_seconds 7 = 12342 := by
  refine ⟨by norm_num, calculate_interval_seconds_spec.1 7 (by norm_num), ?_⟩
  rw [calculate_interval_seconds_spec.1 7 (by norm_num)]
  norm_num [Int.floor_eq_iff]

/-- C9: any runs_per_day strictly greater than 86400 makes
`calculate_interval_seconds` return 0 — the same value as the
runs_per_day = 0 sentinel — so `main` runs one pipeline cycle and exits
instead of looping, even though a positive cadence was configured. -/
theorem calculate_interval_seconds_overflow (r : ℚ) (hr : 86400 < r) :
    calculate_interval_seconds r = 0 ∧
    scheduler_main_behavior (calculate_interval_seconds r) =
      SchedulerBehavior.runOnce := by
  have h0 : (0 : ℚ) < r := lt_trans (by norm_num) hr
  have hq : (0 : ℚ) ≤ 86400 / r := by positivity
  have h1 : calculate_interval_seconds r = 0 := by
    simp only [calculate_interval_seconds, pyInt, if_neg h0.ne', if_pos hq]
    refine Int.floor_eq_zero_iff.mpr (Set.mem_Ico.mpr ⟨hq, ?_⟩)
    rw [div_lt_one h0]
    exact hr
  exact ⟨h1, by rw [h1]; rfl⟩

/-- C9 witness: runs_per_day = 86401 exceeds 86400 and yields interval 0
and the run-once behavior. -/
theorem calculate_interval_seconds_overflow_witness :
    calculate_interval_seconds 86401 = 0 ∧
    scheduler_main_behavior (calculate_interval_seconds 86401) =
      SchedulerBehavior.runOnce :=
  calculate_interval_seconds_overflow 86401 (by norm_num)

/-! ## Scheduler: pipeline cycle (`scheduler.py`, `run_pipeline`) -/

/-- Outcome of one `subprocess.run` invocation: the child either ran to
completion with an exit code, or the spawn itself failed with an OS-level
error (which is not a `CalledProcessError`). -/
inductive SubprocessOutcome where
  | completed (exitCode : ℕ)
  | osError (msg : String)
deriving DecidableEq, Repr

/-- Exceptions relevant to the pipeline cycle. -/
inductive PipelineError where
  | calledProcessError (returncode : ℕ)
  | uncaught (msg : String)
deriving DecidableEq, Repr

/-- Embedding of `subprocess.run(..., check=True)`: a nonzero exit code
raises `CalledProcessError`; a spawn failure raises its own OS error. -/
def subprocess_run_check (out : SubprocessOutcome) : Except PipelineError Unit :=
  match out with
  | SubprocessOutcome.completed 0 => Except.ok ()
  | SubprocessOutcome.completed (c + 1) =>
      Except.error (PipelineError.calledProcessError (c + 1))
  | SubprocessOutcome.osError m => Except.error (PipelineError.uncaught m)

/-- Embedding of one guarded step of `run_pipeline`: the `try`/`except
subprocess.CalledProcessError` block logs the failure and continues; any
other exception keeps propagating. -/
def run_step_guarded (out : SubprocessOutcome) : Except PipelineError Unit :=
  match subprocess_run_check out with
  | Except.ok _ => Except.ok ()
  | Except.error (PipelineError.calledProcessError _) => Except.ok ()
  | Except.error e => Except.error e

/-- Sequence named steps, recording which were attempted; an uncaught
exception stops the sequence and propagates. -/
def run_steps : List (String × Except PipelineError Unit) →
    List String × Except PipelineError Unit
  | [] => ([], Except.ok ())
  | (name, step) :: rest =>
    match step with
    | Except.error e => ([name], Except.error e)
    | Except.ok _ =>
      let tail := run_steps rest
      (name :: tail.1, tail.2)

/-- Embedding of `run_pipeline` (`scheduler.py` lines 249-314): three
subprocess steps — download, transcribe, process — each individually
guarded against `CalledProcessError`.  Returns the list of steps that
were attempted and the overall outcome (`ok` = returns normally). -/
def run_pipeline (download transcribe process : SubprocessOutcome) :
    List String × Except PipelineError Unit :=
  run_steps
    [("download", run_step_guarded download),
     ("transcribe", run_step_guarded transcribe),
     ("process", run_step_guarded process)]

/-- C1: if the download subprocess fails (completes with a nonzero exit
code) then, whatever exit codes the other two subprocesses complete with,
the transcription and processing steps are still attempted and
`run_pipeline` returns normally without propagating the download failure. -/
theorem run_pipeline_download_failure_isolated
    (c ct cp : ℕ) (hc : c ≠ 0) :
    run_pipeline (SubprocessOutcome.completed c)
        (SubprocessOutcome.completed ct) (SubprocessOutcome.completed cp) =
      (["download", "transcribe", "process"], Except.ok ()) := by
  obtain ⟨c0, rfl⟩ := Nat.exists_eq_succ_of_ne_zero hc
  rcases ct with _ | ct0 <;> rcases cp with _ | cp0 <;> rfl

/-- C1 witness: download exits 1, the two other steps exit 0; all three
steps are attempted and the cycle returns normally. -/
theorem run_pipeline_download_failure_isolated_witness :
    run_pipeline (SubprocessOutcome.completed 1)
        (SubprocessOutcome.completed 0) (SubprocessOutcome.completed 0) =
      (["download", "transcribe", "process"], Except.ok ()) :=
  run_pipeline_download_failure_isolated 1 0 0 (by decide)

/-! ## Scheduler: diary date rollover (`scheduler.py`,
`check_for_day_change` and `update_config_date`) -/

/-- The scheduler state visible to `check_for_day_change`: the in-memory
`diary_config` dictionary, the persisted `config.json` date, and the set
of diary files existing on disk.  Filesystem writes are modelled as
succeeding. -/
structure SchedulerState where
  autoUpdateDate : Bool
  configDate : String
  persistedDate : String
  diaryFiles : List String
  fileFormat : String
deriving DecidableEq, Repr

/-- Side effects a call to `check_for_day_change` performs. -/
structure RolloverEffects where
  createdFiles : List String
  persistedDates : List String
deriving DecidableEq, Repr

/-- No side effects. -/
def RolloverEffects.none : RolloverEffects := ⟨[], []⟩

/-- Embedding of `update_config_date` (`scheduler.py` lines 170-192):
rewrites `diary_manager.current_date` in `config.json`. -/
def update_config_date (s : SchedulerState) (newDate : String) : SchedulerState :=
  { s with persistedDate := newDate }

/-- The dated diary filename: `file_format.replace("{date}", date)`. -/
def diary_file_name (file_format date : String) : String :=
  file_format.replace "{date}" date

/-- Embedding of `check_for_day_change` (`scheduler.py` lines 194-247).
Returns (reported change flag, new state, side effects).  When auto
update is disabled or the configured date already equals today, nothing
happens.  Otherwise the new dated diary file is created if missing, the
new date is persisted via `update_config_date`, and the in-memory
`diary_config["current_date"]` copy is updated. -/
def check_for_day_change (today : String) (s : SchedulerState) :
    Bool × SchedulerState × RolloverEffects :=
  if ¬ s.autoUpdateDate then (false, s, RolloverEffects.none)
  else if s.configDate = today then (false, s, RolloverEffects.none)
  else
    let fname := diary_file_name s.fileFormat today
    if fname ∈ s.diaryFiles then
      (true, { update_config_date s today with configDate := today },
        ⟨[], [today]⟩)
    else
      (true,
        { update_config_date { s with diaryFiles := fname :: s.diaryFiles } today
            with configDate := today },
        ⟨[fname], [today]⟩)

/-- C5: `check_for_day_change` is idempotent within a calendar day: after
one call, a second call with the same `today` reports no change, leaves
the state untouched, and performs no rollover side effects (no file
creation, no date persistence) — so the rollover happens at most once. -/
theorem check_for_day_change_idempotent (today : String) (s : SchedulerState) :
    (check_for_day_change today (check_for_day_change today s).2.1) =
      (false, (check_for_day_change today s).2.1, RolloverEffects.none) := by
  by_cases ha : s.autoUpdateDate
  · by_cases hd : s.configDate = today
    · simp [check_for_day_change, ha, hd]
    · by_cases hf : diary_file_name s.fileFormat today ∈ s.diaryFiles <;>
        simp [check_for_day_change, update_config_date, ha, hd, hf]
  · simp [check_for_day_change, ha]

/-! ## Organizer: section extraction (`openai_processor.py`) -/

/-- Python `\s` / `str.strip()` whitespace over the ASCII range. -/
def isPySpace (c : Char) : Bool :=
  c = ' ' || c = '\t' || c = '\n' || c = '\r' || c = '\x0b' || c = '\x0c'

/-- Drop the maximal run of leading whitespace. -/
def dropLeadingSpace : List Char → List Char
  | [] => []
  | c :: cs => if isPySpace c then dropLeadingSpace cs else c :: cs

/-- Embedding of Python `str.strip()`: remove whitespace at both ends. -/
def pyStrip (l : List Char) : List Char :=
  (dropLeadingSpace (dropLeadingSpace l).reverse).reverse

/-- True when the list begins with a whitespace character. -/
def startsWithSpace : List Char → Bool
  | [] => false
  | c :: _ => isPySpace c

/-- Take characters up to (excluding) the first occurrence of `##`,
mirroring the lazy group bounded by the lookahead `(?=##|\Z)`. -/
def takeUntilMarker : List Char → List Char
  | [] => []
  | c :: cs =>
    if List.isPrefixOf ['#', '#'] (c :: cs) then []
    else c :: takeUntilMarker cs

/-- Embedding of `re.search(header + r'\s+(.*?)(?=##|\Z)', text, re.DOTALL)`
followed by `.group(1).strip()`: find the leftmost occurrence of the
literal header that is followed by at least one whitespace character, skip
the maximal whitespace run (the greedy `\s+`), take the lazy group up to
the first `##` or the end of the text, and strip it. -/
def findSection (header : List Char) : List Char → Option (List Char)
  | [] => none
  | c :: cs =>
    if List.isPrefixOf header (c :: cs) &&
        startsWithSpace (List.drop header.length (c :: cs)) then
      some (pyStrip (takeUntilMarker
        (dropLeadingSpace (List.drop header.length (c :: cs)))))
    else findSection header cs

/-- Embedding of `extract_organized_entry` (`openai_processor.py` lines
250-259): the stripped `## ORGANIZED ENTRY` section, or `None`. -/
def extract_organized_entry (analysis : String) : Option String :=
  (findSection "## ORGANIZED ENTRY".data analysis.data).map String.mk

/-- Does `needle` occur as a contiguous sublist (Python `in`)? -/
def containsSublist (needle : List Char) : List Char → Bool
  | [] => needle.isEmpty
  | c :: cs => List.isPrefixOf needle (c :: cs) || containsSublist needle cs

/-- Split on newline characters, Python `str.split('\n')` semantics
(always one more part than separators; empty input gives `[[]]`). -/
def splitLines : List Char → List (List Char)
  | [] => [[]]
  | c :: cs =>
    if c = '\n' then [] :: splitLines cs
    else
      match splitLines cs with
      | l :: ls => (c :: l) :: ls
      | [] => [[c]]

/-- Drop the maximal run of leading ASCII digits (regex `\d+`, greedy). -/
def dropLeadingDigits : List Char → List Char
  | [] => []
  | c :: cs => if c.isDigit then dropLeadingDigits cs else c :: cs

/-- Does the line match `^\d+\.` — one or more digits then a dot? -/
def hasNumberedPrefix (l : List Char) : Bool :=
  match l with
  | [] => false
  | c :: _ =>
    c.isDigit &&
      (match dropLeadingDigits l with
       | '.' :: _ => true
       | _ => false)

/-- Result of `re.sub(r'^\d+\.', '', line)` when the prefix matches. -/
def dropNumberedPrefix (l : List Char) : List Char :=
  match dropLeadingDigits l with
  | '.' :: rest => rest
  | other => other

/-- Embedding of the per-line logic of `extract_todo_items`
(`openai_processor.py` lines 241-246): strip the line; keep it if it
starts with `-` or `*` (dropping that marker and stripping) or matches a
numbered `\d+.` prefix (dropping the prefix and stripping). -/
def parseTodoLine (line : List Char) : Option (List Char) :=
  match pyStrip line with
  | [] => Option.none
  | c :: cs =>
    if c = '-' || c = '*' then some (pyStrip cs)
    else if hasNumberedPrefix (c :: cs) then
      some (pyStrip (dropNumberedPrefix (c :: cs)))
    else none

/-- The literal sentinel the prompt asks the model to emit when there is
nothing to do. -/
def noTodoLiteral : List Char := "No to-do items detected".data

/-- Embedding of `extract_todo_items` (`openai_processor.py` lines
225-248): empty list when the `## TO-DO ITEMS` section is absent or
contains the sentinel literal; otherwise one entry per recognized list
line. -/
def extract_todo_items (analysis : String) : List String :=
  match findSection "## TO-DO ITEMS".data analysis.data with
  | none => []
  | some sec =>
    if containsSublist noTodoLiteral sec then []
    else ((splitLines sec).filterMap parseTodoLine).map String.mk

/-! ## Organizer: processing result (`openai_processor.py`,
`process_transcription`; `process_transcription.py`, `process_with_openai`) -/

/-- Token accounting carried in the API response. -/
structure TokenUsage where
  prompt_tokens : ℕ
  completion_tokens : ℕ
  total_tokens : ℕ
deriving DecidableEq, Repr

/-- The dictionary `process_transcription` returns. -/
structure OrganizerResult where
  analysis : String
  todo_items : List String
  organized_entry : String
  usage : TokenUsage
deriving DecidableEq, Repr

/-- Python `x or y` where `x` is an optional string: `None` and the empty
string are falsy and select `y`. -/
def pyOrElse (x : Option String) (y : String) : String :=
  match x with
  | none => y
  | some s => if s = "" then y else s

/-- Embedding of the result construction of `process_transcription`
(`openai_processor.py` lines 202-223), with the model response text and
usage supplied as inputs: the organized entry is
`extract_organized_entry(analysis) or transcription`. -/
def process_transcription (transcription responseText : String)
    (usage : TokenUsage) : OrganizerResult :=
  { analysis := responseText
    todo_items := extract_todo_items responseText
    organized_entry := pyOrElse (extract_organized_entry responseText) transcription
    usage := usage }

/-- Embedding of the second-layer guard in `process_with_openai`
(`process_transcription.py` lines 225-229): a falsy organized entry is
replaced by the original transcription once more. -/
def process_with_openai_entry (transcription responseText : String)
    (usage : TokenUsage) : String :=
  let organized := (process_transcription transcription responseText usage).organized_entry
  if organized = "" then transcription else organized

/-- C2: whenever extraction of the `## ORGANIZED ENTRY` section fails
(returns `None` or the empty string), the organized entry returned by the
organizer — and by the pipeline layer above it — is the raw transcript
verbatim. -/
theorem process_transcription_preserves_words
    (transcription responseText : String) (usage : TokenUsage)
    (h : extract_organized_entry responseText = none ∨
         extract_organized_entry responseText = some "") :
    (process_transcription transcription responseText usage).organized_entry =
        transcription ∧
      process_with_openai_entry transcription responseText usage = transcription := by
  have h1 : (process_transcription transcription responseText usage).organized_entry =
      transcription := by
    rcases h with h | h <;> simp [process_transcription, pyOrElse, h]
  refine ⟨h1, ?_⟩
  simp only [process_with_openai_entry, h1, ite_self]

/-- C2 witness: a model response with no `## ORGANIZED ENTRY` section at
all; the organizer returns the transcript unchanged. -/
theorem process_transcription_preserves_words_witness :
    (process_transcription "my day was good" "no structure here" ⟨1, 2, 3⟩).organized_entry =
        "my day was good" ∧
      process_with_openai_entry "my day was good" "no structure here" ⟨1, 2, 3⟩ =
        "my day was good" :=
  process_transcription_preserves_words "my day was good" "no structure here"
    ⟨1, 2, 3⟩ (Or.inl (by decide))

/-- The model response of the round-trip scenario. -/
def roundtripResponse : String :=
  "## ORGANIZED ENTRY\nHello\n\n## TO-DO ITEMS\n- buy milk\n- call mom"

/-- C8: on the round-trip response the to-do extractor returns
["buy milk", "call mom"] and the organized-entry extractor returns
"Hello"; in general `extract_todo_items` returns the empty list when the
`## TO-DO ITEMS` section is absent or contains the literal
"No to-do items detected", and otherwise one string per recognized list
line with its bullet marker or numeric-dot prefix stripped. -/
theorem extract_sections_roundtrip :
    extract_todo_items roundtripResponse = ["buy milk", "call mom"]
  ∧ extract_organized_entry roundtripResponse = some "Hello"
  ∧ (∀ s : String, findSection "## TO-DO ITEMS".data s.data = none →
      extract_todo_items s = [])
  ∧ (∀ s : String, ∀ sec : List Char,
      findSection "## TO-DO ITEMS".data s.data = some sec →
      containsSublist noTodoLiteral sec = true → extract_todo_items s = [])
  ∧ (∀ s : String, ∀ sec : List Char,
      findSection "## TO-DO ITEMS".data s.data = some sec →
      containsSublist noTodoLiteral sec = false →
      extract_todo_items s =
        ((splitLines sec).filterMap parseTodoLine).map String.mk) := by
  refine ⟨by decide, by decide, ?_, ?_, ?_⟩
  · intro s h
    simp [extract_todo_items, h]
  · intro s sec h hc
    simp [extract_todo_items, h, hc]
  · intro s sec h hc
    simp [extract_todo_items, h, hc]

/-- C8 witness: concrete instances of the three conditional parts — a
response without a to-do section, one whose section is exactly the
"No to-do items detected." sentinel, and one with a single bulleted item. -/
theorem extract_sections_roundtrip_witness :
    extract_todo_items "just some words" = []
  ∧ extract_todo_items "## TO-DO ITEMS\nNo to-do items detected." = []
  ∧ extract_todo_items "## TO-DO ITEMS\n- a" =
      ((splitLines "- a".data).filterMap parseTodoLine).map String.mk :=
  ⟨extract_sections_roundtrip.2.2.1 "just some words" (by decide),
   extract_sections_roundtrip.2.2.2.1 "## TO-DO ITEMS\nNo to-do items detected."
     "No to-do items detected.".data (by decide) (by decide),
   extract_sections_roundtrip.2.2.2.2 "## TO-DO ITEMS\n- a" "- a".data
     (by decide) (by decide)⟩

/-! ## Organizer: retry with backoff (`openai_processor.py`,
`call_openai_api` lines 137-172) -/

/-- The retry loop of `call_openai_api`, with the endpoint modelled as a
function from the attempt index to the attempt's outcome.  `fuel` is the
number of retries still allowed (`max_retries - 1 - attempt`); a success
returns the result; a failure with fuel left sleeps for `delay` seconds
and doubles the delay; a failure with no fuel re-raises.  Returns the
result, the list of sleeps, and the number of attempts made. -/
def retry_go {E R : Type} (attemptResult : ℕ → Except E R) :
    ℕ → ℕ → ℕ → Except E R × List ℕ × ℕ
  | fuel, attempt, delay =>
    match attemptResult attempt with
    | Except.ok r => (Except.ok r, [], 1)
    | Except.error e =>
      match fuel with
      | 0 => (Except.error e, [], 1)
      | f + 1 =>
        let rest := retry_go attemptResult f (attempt + 1) (delay * 2)
        (rest.1, delay :: rest.2.1, rest.2.2 + 1)

/-- Embedding of the retry mechanism of `call_openai_api`:
`max_retries = 3`, `retry_delay` starting at 1 second. -/
def call_openai_api_with_retries {E R : Type} (attemptResult : ℕ → Except E R) :
    Except E R × List ℕ × ℕ :=
  retry_go attemptResult 2 0 1

/-- C6: the language-model call wrapper makes at most three attempts; when
every attempt fails it sleeps 1 second before the second attempt and 2
seconds before the third, and the third failure propagates as an error
rather than being swallowed. -/
theorem call_openai_api_retry_policy {E R : Type}
    (attemptResult : ℕ → Except E R) :
    (call_openai_api_with_retries attemptResult).2.2 ≤ 3
  ∧ (∀ e0 e1 e2 : E,
      attemptResult 0 = Except.error e0 →
      attemptResult 1 = Except.error e1 →
      attemptResult 2 = Except.error e2 →
      call_openai_api_with_retries attemptResult =
        (Except.error e2, [1, 2], 3))
  ∧ (∀ r : R, attemptResult 0 = Except.ok r →
      call_openai_api_with_retries attemptResult = (Except.ok r, [], 1)) := by
  refine ⟨?_, ?_, ?_⟩
  · rcases h0 : attemptResult 0 with e0 | r0
    · rcases h1 : attemptResult 1 with e1 | r1
      · rcases h2 : attemptResult 2 with e2 | r2 <;>
          simp [call_openai_api_with_retries, retry_go, h0, h1, h2]
      · simp [call_openai_api_with_retries, retry_go, h0, h1]
    · simp [call_openai_api_with_retries, retry_go, h0]
  · intro e0 e1 e2 h0 h1 h2
    simp [call_openai_api_with_retries, retry_go, h0, h1, h2]
  · intro r h0
    simp [call_openai_api_with_retries, retry_go, h0]

/-- C6 witness: with every attempt failing (error code 503), the wrapper
makes exactly 3 attempts, sleeps [1, 2], and propagates the error. -/
theorem call_openai_api_retry_policy_witness :
    call_openai_api_with_retries (fun _ => (Except.error 503 : Except ℕ String)) =
      (Except.error 503, [1, 2], 3) :=
  (call_openai_api_retry_policy (fun _ => (Except.error 503 : Except ℕ String))).2.1
    503 503 503 rfl rfl rfl

/-! ## Organizer: request cache (`openai_processor.py`, `call_openai_api`
lines 108-121 and 158-163) -/

/-- The fields serialized into the cache key by `json.dumps` in
`call_openai_api`: model, messages (role/content pairs), temperature and
max_tokens. -/
structure ApiRequest where
  model : String
  messages : List (String × String)
  temperature : ℚ
  max_tokens : ℕ
deriving DecidableEq, Repr

/-- The processed response `call_openai_api` returns and caches. -/
structure ApiResult where
  text : String
  usage : TokenUsage
deriving DecidableEq, Repr

/-- Lookup in the module-level `_api_cache` dictionary, keyed by the
serialized request (equal requests serialize to the equal key). -/
def cache_lookup (cache : List (ApiRequest × ApiResult)) (req : ApiRequest) :
    Option ApiResult :=
  match cache with
  | [] => none
  | (k, v) :: rest => if k = req then some v else cache_lookup rest req

/-- Embedding of the caching skeleton of `call_openai_api` with a
successfully responding endpoint: with caching enabled, a cached response
is returned without touching the endpoint; otherwise the endpoint is
invoked once and the result is stored.  Returns the result, the new
cache, and the number of endpoint invocations this call performed. -/
def call_openai_api_cached (enableCaching : Bool)
    (endpoint : ApiRequest → ApiResult)
    (cache : List (ApiRequest × ApiResult)) (req : ApiRequest) :
    ApiResult × List (ApiRequest × ApiResult) × ℕ :=
  if enableCaching then
    match cache_lookup cache req with
    | some v => (v, cache, 0)
    | none =>
      let v := endpoint req
      (v, (req, v) :: cache, 1)
  else (endpoint req, cache, 1)

/-- C7: with caching enabled, two calls with the identical request make at
most one endpoint invocation in total; the second call performs no
endpoint invocation, returns exactly the first call's result, and leaves
the cache unchanged; and no cache entry is ever evicted by either call. -/
theorem call_openai_api_cache_hit (endpoint : ApiRequest → ApiResult)
    (cache : List (ApiRequest × ApiResult)) (req : ApiRequest) :
    (call_openai_api_cached true endpoint
        (call_openai_api_cached true endpoint cache req).2.1 req).2.2 = 0
  ∧ (call_openai_api_cached true endpoint
        (call_openai_api_cached true endpoint cache req).2.1 req).1 =
      (call_openai_api_cached true endpoint cache req).1
  ∧ (call_openai_api_cached true endpoint cache req).2.2 +
      (call_openai_api_cached true endpoint
        (call_openai_api_cached true endpoint cache req).2.1 req).2.2 ≤ 1
  ∧ (call_openai_api_cached true endpoint
        (call_openai_api_cached true endpoint cache req).2.1 req).2.1 =
      (call_openai_api_cached true endpoint cache req).2.1
  ∧ (∀ entry, entry ∈ cache →
      entry ∈ (call_openai_api_cached true endpoint cache req).2.1) := by
  rcases h : cache_lookup cache req with _ | v
  · have hl : cache_lookup ((req, endpoint req) :: cache) req = some (endpoint req) := by
      simp [cache_lookup]
    refine ⟨?_, ?_, ?_, ?_, fun entry he => ?_⟩ <;>
      simp [call_openai_api_cached, h, hl, List.mem_cons]
    exact Or.inr he
  · refine ⟨?_, ?_, ?_, ?_, fun entry he => ?_⟩ <;>
      simp [call_openai_api_cached, h]
    exact he

/-- C7 witness: starting from the empty cache, the first call invokes the
endpoint once, and the repeated identical call is served from the cache:
zero further invocations, the same result, the same cache. -/
theorem call_openai_api_cache_hit_witness :
    (call_openai_api_cached true (fun _ => ⟨"ok", 1, 1, 2⟩)
        (call_openai_api_cached true (fun _ => ⟨"ok", 1, 1, 2⟩) []
          ⟨"gpt-4o", [("user", "hi")], 3 / 10, 2048⟩).2.1
        ⟨"gpt-4o", [("user", "hi")], 3 / 10, 2048⟩).2.2 = 0 ∧
    (call_openai_api_cached true (fun _ => ⟨"ok", 1, 1, 2⟩) []
        ⟨"gpt-4o", [("user", "hi")], 3 / 10, 2048⟩).2.2 +
      (call_openai_api_cached true (fun _ => ⟨"ok", 1, 1, 2⟩)
        (call_openai_api_cached true (fun _ => ⟨"ok", 1, 1, 2⟩) []
          ⟨"gpt-4o", [("user", "hi")], 3 / 10, 2048⟩).2.1
        ⟨"gpt-4o", [("user", "hi")], 3 / 10, 2048⟩).2.2 ≤ 1 :=
  ⟨(call_openai_api_cache_hit (fun _ => ⟨"ok", 1, 1, 2⟩) []
      ⟨"gpt-4o", [("user", "hi")], 3 / 10, 2048⟩).1,
   (call_openai_api_cache_hit (fun _ => ⟨"ok", 1, 1, 2⟩) []
      ⟨"gpt-4o", [("user", "hi")], 3 / 10, 2048⟩).2.2.1⟩

/-! ## Dispatcher: audio chunking (`openai_whisper.py`, `chunk_audio_file`
lines 235-293) -/

/-- A path in the list `chunk_audio_file` returns: either the original
audio file, or a cut segment identified by its start offset and requested
length (both in seconds, as passed to the transcoder). -/
inductive ChunkPath where
  | original
  | segment (start len : ℚ)
deriving DecidableEq, Repr

/-- What one call to `chunk_audio_file` did: the returned list and how
many transcoder invocations (`ffmpeg` subprocesses) it made. -/
structure ChunkOutcome where
  result : List ChunkPath
  transcoderCalls : ℕ
deriving DecidableEq, Repr

/-- Embedding of `chunk_audio_file`: `max_chunk_size_sec =
max_chunk_size_ms / 1000`; a duration within the bound returns the
original path with no transcoding; otherwise
`num_chunks = int(duration / max_chunk_size_sec) + 1` segments are cut at
starts `i * max_chunk_size_sec`, each requested with length
`max_chunk_size_sec`, and a segment is kept only if it materialized as a
nonempty file (the external `materialized` oracle). -/
def chunk_audio_file (duration max_chunk_size_ms : ℚ)
    (materialized : ℕ → Bool) : ChunkOutcome :=
  let maxSec := max_chunk_size_ms / 1000
  if duration ≤ maxSec then ⟨[ChunkPath.original], 0⟩
  else
    let num := (pyInt (duration / maxSec) + 1).toNat
    ⟨(List.range num).filterMap (fun i =>
        if materialized i then some (ChunkPath.segment (i * maxSec) maxSec)
        else none),
      num⟩

/-- C4 counterexample: a 20-second file with a 10000 ms chunk bound.  The
claim says ceil(20 / 10) = 2 segments are produced, but the code cuts
int(20 / 10) + 1 = 3 segments (the divisibility case), and with every
segment materializing the result list has 3 elements, not 2. -/
theorem chunk_audio_file_ceil_counterexample :
    (chunk_audio_file 20 10000 (fun _ => true)).transcoderCalls = 3
  ∧ (chunk_audio_file 20 10000 (fun _ => true)).result.length = 3
  ∧ ⌈(20 : ℚ) / (10000 / 1000)⌉ = 2 := by
  have hngt : ¬ ((20 : ℚ) ≤ 10000 / 1000) := by norm_num
  have hpy : pyInt ((20 : ℚ) / (10000 / 1000)) = 2 := by
    rw [pyInt, if_pos (by norm_num : (0 : ℚ) ≤ 20 / (10000 / 1000))]
    norm_num [Int.floor_eq_iff]
  have hr3 : ((2 : ℤ) + 1).toNat = 3 := rfl
  refine ⟨?_, ?_, by norm_num [Int.ceil_eq_iff]⟩
  · simp [chunk_audio_file, hngt, hpy, hr3]
  · simp [chunk_audio_file, hngt, hpy, hr3, List.range_succ]

/-- C4 (amended): within the bound the original path is returned with no
transcoding; above the bound the code cuts `⌊duration / maxSec⌋ + 1`
sequential segments starting at `i * maxSec`, each requested with length
`maxSec`, keeping exactly the ones that materialize — and that count
equals `⌈duration / maxSec⌉` whenever the duration is not an exact
multiple of the chunk length. -/
theorem chunk_audio_file_spec (duration max_chunk_size_ms : ℚ)
    (materialized : ℕ → Bool) (hpos : 0 < max_chunk_size_ms) :
    (duration ≤ max_chunk_size_ms / 1000 →
      chunk_audio_file duration max_chunk_size_ms materialized =
        ⟨[ChunkPath.original], 0⟩)
  ∧ (max_chunk_size_ms / 1000 < duration →
      (chunk_audio_file duration max_chunk_size_ms materialized).transcoderCalls =
          (⌊duration / (max_chunk_size_ms / 1000)⌋ + 1).toNat
      ∧ (chunk_audio_file duration max_chunk_size_ms materialized).result =
          (List.range (⌊duration / (max_chunk_size_ms / 1000)⌋ + 1).toNat).filterMap
            (fun i => if materialized i then
              some (ChunkPath.segment (i * (max_chunk_size_ms / 1000))
                (max_chunk_size_ms / 1000))
            else none)
      ∧ (duration / (max_chunk_size_ms / 1000) ≠
            (⌊duration / (max_chunk_size_ms / 1000)⌋ : ℚ) →
          (⌊duration / (max_chunk_size_ms / 1000)⌋ + 1 : ℤ) =
            ⌈duration / (max_chunk_size_ms / 1000)⌉)) := by
  have hsec : (0 : ℚ) < max_chunk_size_ms / 1000 := by positivity
  constructor
  · intro hle
    simp [chunk_audio_file, hle]
  · intro hgt
    have hq : (0 : ℚ) ≤ duration / (max_chunk_size_ms / 1000) := by
      have : (0 : ℚ) < duration := lt_trans hsec hgt
      positivity
    have hpy : pyInt (duration / (max_chunk_size_ms / 1000)) =
        ⌊duration / (max_chunk_size_ms / 1000)⌋ := by
      simp [pyInt, hq]
    refine ⟨?_, ?_, ?_⟩
    · simp [chunk_audio_file, not_le.mpr hgt, hpy]
    · simp [chunk_audio_file, not_le.mpr hgt, hpy]
    · intro hne
      set q : ℚ := duration / (max_chunk_size_ms / 1000) with hqdef
      have hfle : (⌊q⌋ : ℚ) ≤ q := Int.floor_le q
      have hlec : q ≤ (⌈q⌉ : ℚ) := Int.le_ceil q
      have hlt : ⌊q⌋ < ⌈q⌉ := by
        by_contra hcon
        push_neg at hcon
        have hcast : ((⌈q⌉ : ℤ) : ℚ) ≤ ((⌊q⌋ : ℤ) : ℚ) := by exact_mod_cast hcon
        exact hne (le_antisymm (le_trans hlec hcast) hfle)
      have hub : ⌈q⌉ ≤ ⌊q⌋ + 1 := Int.ceil_le_floor_add_one q
      omega

/-- C4 witness: a 25-second file with a 10000 ms bound exceeds the bound;
the code cuts ⌊25 / 10⌋ + 1 = 3 segments, which here equals ⌈25 / 10⌉
because 10 does not divide 25 evenly. -/
theorem chunk_audio_file_spec_witness :
    (chunk_audio_file 25 10000 (fun _ => true)).transcoderCalls =
      (⌊(25 : ℚ) / (10000 / 1000)⌋ + 1).toNat
  ∧ (⌊(25 : ℚ) / (10000 / 1000)⌋ + 1 : ℤ) = ⌈(25 : ℚ) / (10000 / 1000)⌉ := by
  have hfl : (⌊(25 : ℚ) / (10000 / 1000)⌋ : ℤ) = 2 := by
    norm_num [Int.floor_eq_iff]
  have hne : (25 : ℚ) / (10000 / 1000) ≠ (⌊(25 : ℚ) / (10000 / 1000)⌋ : ℚ) := by
    rw [hfl]; norm_num
  exact ⟨((chunk_audio_file_spec 25 10000 (fun _ => true) (by norm_num)).2
      (by norm_num)).1,
    ((chunk_audio_file_spec 25 10000 (fun _ => true) (by norm_num)).2
      (by norm_num)).2.2 hne⟩

/-! ## Processing entry point (`process_transcription.py`, `main` lines
254-285 and `read_transcription_file` lines 165-184) -/

/-- Embedding of `read_transcription_file`: a missing file or a file that
is empty after stripping whitespace yields `None`. -/
def read_transcription_file (content : Option String) : Option String :=
  match content with
  | none => none
  | some c => if pyStrip c.data = [] then none else some c

/-- Final observable state of one run of `main` in
`process_transcription.py`: the transcription file's contents afterwards
and the process exit code (0 = normal completion). -/
structure MainOutcome where
  finalContent : Option String
  exitCode : ℕ
deriving DecidableEq, Repr

/-- Embedding of `main` (`process_transcription.py` lines 254-285): no
readable transcription exits with code 1 and leaves the file alone;
otherwise `process_with_openai` runs (modelled by the success oracle) and
only on success is the file truncated to empty; failure exits with code 1
leaving the file unchanged. -/
def process_transcription_main (content : Option String)
    (processSucceeds : String → Bool) : MainOutcome :=
  match read_transcription_file content with
  | none => ⟨content, 1⟩
  | some t => if processSucceeds t then ⟨some "", 0⟩ else ⟨content, 1⟩

/-- C10: the transcription file is truncated only after
`process_with_openai` reports success; when processing fails the file's
contents are left unchanged and the process exits with a non-zero status. -/
theorem main_truncates_only_on_success (content : Option String)
    (processSucceeds : String → Bool) :
    ((process_transcription_main content processSucceeds).finalContent ≠ content →
      (process_transcription_main content processSucceeds).exitCode = 0
      ∧ (process_transcription_main content processSucceeds).finalContent = some ""
      ∧ ∃ t, read_transcription_file content = some t ∧ processSucceeds t = true)
  ∧ (∀ t, read_transcription_file content = some t → processSucceeds t = false →
      (process_transcription_main content processSucceeds).finalContent = content
      ∧ (process_transcription_main content processSucceeds).exitCode ≠ 0) := by
  constructor
  · intro hne
    rcases h : read_transcription_file content with _ | t
    · exact absurd (by simp [process_transcription_main, h]) hne
    · by_cases hp : processSucceeds t
      · refine ⟨by simp [process_transcription_main, h, hp],
          by simp [process_transcription_main, h, hp], t, rfl, hp⟩
      · exact absurd (by simp [process_transcription_main, h, hp]) hne
  · intro t h hp
    simp [process_transcription_main, h, hp]

/-- C10 witness: with content "hello" and a failing processor, the file
keeps its contents and the exit status is non-zero. -/
theorem main_truncates_only_on_success_witness :
    (process_transcription_main (some "hello") (fun _ => false)).finalContent =
        some "hello"
    ∧ (process_transcription_main (some "hello") (fun _ => false)).exitCode ≠ 0 :=
  (main_truncates_only_on_success (some "hello") (fun _ => false)).2 "hello"
    (by decide) rfl
